import Mathlib

/-!
ScarePrank (`anomaly_001.py`) — verification of the spec claims.

Shallow embedding of the close/minimize-guard state machine, the secret-code
helpers (clue finder, trivia helper, emergency quiz), the secret-code
generator, and the IP-geolocation fallback chain of `src/anomaly_001.py`.

Conventions:
* Python strings are modelled as `List Char` (string literals are converted
  with `String.toList` where convenient).
* A cancelled `simpledialog.askstring` returns Python `None`, modelled as
  `Option`'s `none`; a typed answer is `some s`.
* `random.shuffle` / `random.sample` / `random.randint` outputs enter the
  model as parameters constrained by the hypotheses the Python library
  guarantees (a permutation, a no-duplicate draw from the pool, a number in
  the requested range).
-/

namespace ScarePrank

/-! ## Python string primitives used by the source -/

/-- Python whitespace characters relevant to `str.strip()` (ASCII set). -/
def isPySpace (c : Char) : Bool :=
  c == ' ' || c == '\t' || c == '\n' || c == '\r' || c == '\x0b' || c == '\x0c'

/-- Python `str.strip()`: drop leading and trailing whitespace. -/
def pyStrip (s : List Char) : List Char :=
  ((s.dropWhile isPySpace).reverse.dropWhile isPySpace).reverse

/-- Python `str.lower()` on the ASCII strings used by the quiz pools. -/
def pyLower (s : List Char) : List Char :=
  s.map Char.toLower

/-- Python truthiness of a string: non-empty. -/
def pyTruthy (s : List Char) : Bool :=
  s ≠ []

/-! ## WindowGuard: `on_close_attempt` / `show_overlay_then_reset`

The mutable window attributes `root.attempts`, `root.overlay_open` and
`root.active_overlay` form the guard state; `active_overlay` is tracked by the
boolean since at most the identity of the single overlay matters. -/

structure GuardState where
  attempts : Nat
  overlay_open : Bool
deriving DecidableEq, Repr

/-- What a close/minimize attempt did, observationally. -/
inductive AttemptEffect
  | warned
  | openedOverlay
  | refocusedOverlay
deriving DecidableEq, Repr

/-- Transition of `show_overlay_then_reset` (lines 544–604): if an overlay is already open,
re-focus it and return; otherwise create the overlay and mark it open.
(The expiry callback it schedules is modelled as the separate
`overlay_finish` / expiry event.) -/
def show_overlay_then_reset (s : GuardState) : GuardState × AttemptEffect :=
  if s.overlay_open then (s, .refocusedOverlay)
  else ({ s with overlay_open := true }, .openedOverlay)

/-- Transition of `on_close_attempt` (lines 861–868): increment `root.attempts`; warn on the
first attempt, otherwise run `show_overlay_then_reset`.  (`on_unmap` performs
the same transition after de-iconifying.) -/
def on_close_attempt (s : GuardState) : GuardState × AttemptEffect :=
  let s1 : GuardState := { s with attempts := s.attempts + 1 }
  if s1.attempts = 1 then (s1, .warned)
  else show_overlay_then_reset s1

/-- The `finish` callback inside `show_overlay_then_reset` (lines 593–601):
destroy the overlay, clear the open flag, reset `root.attempts` to 0. -/
def overlay_finish (_s : GuardState) : GuardState :=
  { attempts := 0, overlay_open := false }

/-- Events driving the guard: a close/minimize attempt, or the expiry of the
currently-open overlay's timer. -/
inductive GuardEvent
  | attempt
  | expiry
deriving DecidableEq, Repr

/-- One step of the guard.  An expiry timer only exists while an overlay is
open, so `expiry` acts only then. -/
def guardStep (s : GuardState) : GuardEvent → GuardState
  | .attempt => (on_close_attempt s).1
  | .expiry => if s.overlay_open then overlay_finish s else s

/-- Initial guard state: `root.attempts = 0`, no overlay (lines 788, 858). -/
def guardInit : GuardState := ⟨0, false⟩

/-- Run a sequence of events from the initial state. -/
def guardRun (evs : List GuardEvent) : GuardState :=
  evs.foldl guardStep guardInit

/-- A state the guard can actually be in. -/
def GuardReachable (s : GuardState) : Prop :=
  ∃ evs, guardRun evs = s

/-- Run a sequence of events, also recording the effect of every attempt. -/
def guardTrace (evs : List GuardEvent) : GuardState × List AttemptEffect :=
  evs.foldl
    (fun acc ev =>
      match ev with
      | .attempt =>
          let r := on_close_attempt acc.1
          (r.1, acc.2 ++ [r.2])
      | .expiry => (guardStep acc.1 .expiry, acc.2))
    (guardInit, [])

/-- Invariant: whenever an overlay is open, at least two attempts have been
counted (the overlay only opens on the second or later attempt, and closing
it resets the counter). -/
def GuardInv (s : GuardState) : Prop :=
  s.overlay_open = true → 2 ≤ s.attempts

theorem guardStep_inv {s : GuardState} (h : GuardInv s) (ev : GuardEvent) :
    GuardInv (guardStep s ev) := by
  cases ev with
  | attempt =>
    by_cases h0 : s.attempts + 1 = 1
    · have hz : s.attempts = 0 := by omega
      have hcl : s.overlay_open = false := by
        by_contra hc
        have := h (by simpa using hc)
        omega
      intro hc
      exfalso
      have hco : s.overlay_open = true := by
        simpa [guardStep, on_close_attempt, h0] using hc
      rw [hco] at hcl
      exact Bool.noConfusion hcl
    · by_cases hop : s.overlay_open
      · intro _
        have := h hop
        simp [guardStep, on_close_attempt, h0, show_overlay_then_reset, hop]
        omega
      · intro _
        simp [guardStep, on_close_attempt, h0, show_overlay_then_reset, hop]
        omega
  | expiry =>
    by_cases hop : s.overlay_open
    · intro hc
      simp [guardStep, hop, overlay_finish] at hc
    · simpa [guardStep, hop] using h

theorem guardRun_inv_aux (evs : List GuardEvent) :
    ∀ s : GuardState, GuardInv s → GuardInv (evs.foldl guardStep s) := by
  induction evs with
  | nil => intro s h; simpa using h
  | cons ev rest ih =>
    intro s h
    exact ih (guardStep s ev) (guardStep_inv h ev)

theorem guardReachable_inv {s : GuardState} (h : GuardReachable s) : GuardInv s := by
  obtain ⟨evs, hevs⟩ := h
  have : GuardInv (guardRun evs) := by
    have hinit : GuardInv guardInit := by intro h; simp [guardInit] at h
    exact guardRun_inv_aux evs guardInit hinit
  rwa [hevs] at this

/-- C1: on any reachable guard state — a first attempt (counter 0 → 1) only
warns and never opens an overlay; a second or later attempt with no overlay
open opens exactly one overlay; an attempt while an overlay is open re-focuses
it, leaving the single overlay open and creating no second one; and overlay
expiry closes the overlay and resets the counter to 0. -/
theorem windowGuard_overlay_protocol (s : GuardState) (hs : GuardReachable s) :
    (s.attempts = 0 →
      (on_close_attempt s).2 = .warned ∧
      (on_close_attempt s).1.overlay_open = s.overlay_open) ∧
    (1 ≤ s.attempts → s.overlay_open = false →
      (on_close_attempt s).2 = .openedOverlay ∧
      (on_close_attempt s).1.overlay_open = true) ∧
    (s.overlay_open = true →
      (on_close_attempt s).2 = .refocusedOverlay ∧
      (on_close_attempt s).1 = { s with attempts := s.attempts + 1 }) ∧
    (s.overlay_open = true →
      guardStep s .expiry = { attempts := 0, overlay_open := false }) := by
  have hinv := guardReachable_inv hs
  refine ⟨?_, ?_, ?_, ?_⟩
  · intro h0
    constructor <;> simp [on_close_attempt, h0]
  · intro h1 hcl
    have hne : ¬ s.attempts + 1 = 1 := by omega
    constructor <;> simp [on_close_attempt, hne, show_overlay_then_reset, hcl]
  · intro hop
    have h2 := hinv hop
    have hne : ¬ s.attempts + 1 = 1 := by omega
    constructor <;> simp [on_close_attempt, hne, show_overlay_then_reset, hop]
  · intro hop
    simp [guardStep, hop, overlay_finish]

theorem windowGuard_overlay_protocol_witness :
    (on_close_attempt ⟨2, true⟩).2 = .refocusedOverlay ∧
    guardStep ⟨2, true⟩ .expiry = ⟨0, false⟩ := by
  have h := windowGuard_overlay_protocol ⟨2, true⟩ ⟨[.attempt, .attempt], rfl⟩
  exact ⟨(h.2.2.1 rfl).1, h.2.2.2 rfl⟩

/-- C2 counterexample: after the attempt sequence [close, close, close] with
no expiry in between, `root.attempts` is 3, not 2 — `on_close_attempt`
increments the counter on every attempt, including ones made while the
overlay is open. -/
theorem attempts_after_three_closes_ne_two :
    (guardRun [.attempt, .attempt, .attempt]).attempts = 3 ∧
    ¬ (guardRun [.attempt, .attempt, .attempt]).attempts = 2 := by
  decide

/-- C2 (amended): for [close, close, close] with no expiry in between, the
overlay is opened exactly once (on the 2nd attempt), the 3rd attempt
re-focuses that same overlay, and `AttemptCounter` equals 3 (it is incremented
by every attempt) until overlay expiry resets it to 0. -/
theorem close_close_close_behavior :
    guardTrace [.attempt, .attempt, .attempt] =
      (⟨3, true⟩, [.warned, .openedOverlay, .refocusedOverlay]) ∧
    guardStep ⟨3, true⟩ .expiry = ⟨0, false⟩ := by
  decide

/-! ## Quiz answer matching and the emergency flow (`emergency_quiz_flow`) -/

/-- Shared answer check of both quiz loops (lines 473–476 and 517–520):
`if ans and ans.strip().lower() == a.lower()`. -/
def answer_correct (expected : List Char) (ans : Option (List Char)) : Bool :=
  match ans with
  | none => false
  | some s => pyTruthy s && (pyLower (pyStrip s) == pyLower expected)

/-- Count of correctly answered questions: the quiz loop pairs each picked
question with the dialog answer the user gave it. -/
def count_correct (picks : List (List Char × List Char))
    (answers : List (Option (List Char))) : Nat :=
  (List.zipWith (fun qa ans => answer_correct qa.2 ans) picks answers).count true

/-- The emergency quiz question pool (lines 498–514). -/
def emergency_qpool : List (List Char × List Char) :=
  [("What is the capital of Iceland?".toList, "reykjavik".toList),
   ("What year did the Titanic sink?".toList, "1912".toList),
   ("What is the chemical formula for table salt?".toList, "nacl".toList),
   ("Who painted the Mona Lisa?".toList, "leonardo da vinci".toList),
   ("Which gas makes up ~78% of Earth\x27s atmosphere?".toList, "nitrogen".toList),
   ("What is the largest planet in our solar system?".toList, "jupiter".toList),
   ("What is the square root of 144?".toList, "12".toList),
   ("Which metal has the highest electrical conductivity?".toList, "silver".toList),
   ("In which country is the Taj Mahal located?".toList, "india".toList),
   ("Who proposed the theory of general relativity?".toList, "albert einstein".toList),
   ("What is the freezing point of water in Celsius?".toList, "0".toList),
   ("Which city hosted the 2012 Summer Olympics?".toList, "london".toList),
   ("What currency is used in Japan?".toList, "yen".toList),
   ("What is the chemical symbol for iron?".toList, "fe".toList),
   ("Which scientist discovered penicillin?".toList, "alexander fleming".toList)]

/-- Outcome of the emergency quiz stage. -/
inductive EmergencyOutcome
  | codeEntry
  | reported (wrong : Nat)
deriving DecidableEq, Repr

/-- Post-quiz branch of `emergency_quiz_flow` (lines 522–537):
`wrong = 10 - correct`; code entry is offered iff `wrong == 0`. -/
def emergency_quiz_outcome (picks : List (List Char × List Char))
    (answers : List (Option (List Char))) : EmergencyOutcome :=
  let correct := count_correct picks answers
  let wrong := 10 - correct
  if wrong = 0 then .codeEntry else .reported wrong

/-- Outcome of the code-entry step. -/
inductive CodeOutcome
  | unlocked
  | rejected
deriving DecidableEq, Repr

/-- Code-entry check of `emergency_quiz_flow` (lines 526–535):
`if code and code.strip() == secret_code` — truthy (entered, non-empty) and
equal to the secret after stripping surrounding whitespace. -/
def code_entry (secret : List Char) (entered : Option (List Char)) : CodeOutcome :=
  match entered with
  | none => .rejected
  | some code =>
      if pyTruthy code = true ∧ pyStrip code = secret then .unlocked else .rejected

/-! ### Stripping facts -/

theorem dropWhile_eq_self_of_forall {l : List Char}
    (h : ∀ c ∈ l, isPySpace c = false) : l.dropWhile isPySpace = l := by
  cases l with
  | nil => rfl
  | cons c cs =>
      have hc := h c (List.mem_cons_self c cs)
      simp [List.dropWhile_cons, hc]

theorem pyStrip_eq_self {l : List Char}
    (h : ∀ c ∈ l, isPySpace c = false) : pyStrip l = l := by
  unfold pyStrip
  rw [dropWhile_eq_self_of_forall h,
    dropWhile_eq_self_of_forall (fun c hc => h c (List.mem_reverse.1 hc)),
    List.reverse_reverse]

theorem isPySpace_eq_false_of_isDigit {c : Char} (h : c.isDigit = true) :
    isPySpace c = false := by
  by_contra hs
  have hs' : isPySpace c = true := by
    cases hb : isPySpace c
    · exact absurd hb hs
    · rfl
  have hcases :
      ((((c = ' ' ∨ c = '\t') ∨ c = '\n') ∨ c = '\r') ∨ c = '\x0b') ∨ c = '\x0c' := by
    simpa [isPySpace] using hs'
  rcases hcases with ((((h1 | h1) | h1) | h1) | h1) | h1 <;>
    (subst h1; exact absurd h (by decide))

/-- C3 counterexample: with SecretCode "1234", entering " 1234" (leading
space) takes the success path even though the entered string does not equal
SecretCode — the code compares `code.strip()`, not the raw string. -/
theorem code_entry_strip_counterexample :
    code_entry "1234".toList (some " 1234".toList) = .unlocked ∧
    " 1234".toList ≠ "1234".toList := by
  decide

/-- C3 (amended): the application-ending success path is taken iff an answer
was entered, is non-empty, and equals SecretCode after stripping leading and
trailing whitespace; cancelled or blank input is rejected; entering exactly
SecretCode (a non-empty all-digit string) unlocks. -/
theorem code_entry_unlocks_iff (secret : List Char) (hlen : secret.length = 4)
    (hdig : ∀ c ∈ secret, c.isDigit) (entered : Option (List Char)) :
    (code_entry secret entered = .unlocked ↔
      ∃ code, entered = some code ∧ pyTruthy code = true ∧ pyStrip code = secret) ∧
    code_entry secret none = .rejected ∧
    code_entry secret (some []) = .rejected ∧
    code_entry secret (some secret) = .unlocked := by
  have hsecret_strip : pyStrip secret = secret :=
    pyStrip_eq_self (fun c hc => isPySpace_eq_false_of_isDigit (hdig c hc))
  have hne : secret ≠ [] := by
    intro h
    rw [h] at hlen
    simp at hlen
  refine ⟨?_, rfl, by simp [code_entry, pyTruthy], ?_⟩
  · cases entered with
    | none => simp [code_entry]
    | some code =>
        constructor
        · intro h
          by_cases hcond : pyTruthy code = true ∧ pyStrip code = secret
          · exact ⟨code, rfl, hcond.1, hcond.2⟩
          · simp [code_entry, hcond] at h
        · rintro ⟨code', hc', ht, hstrip⟩
          obtain rfl : code' = code := by injection hc'.symm
          simp [code_entry, ht, hstrip]
  · have ht : pyTruthy secret = true := by simp [pyTruthy, hne]
    simp [code_entry, ht, hsecret_strip]

theorem code_entry_unlocks_iff_witness :
    code_entry "1234".toList (some "1234".toList) = .unlocked :=
  (code_entry_unlocks_iff "1234".toList (by decide) (by decide)
    (some "1234".toList)).2.2.2

theorem count_correct_le (picks : List (List Char × List Char))
    (answers : List (Option (List Char))) :
    count_correct picks answers ≤ picks.length := by
  unfold count_correct
  calc (List.zipWith (fun qa ans => answer_correct qa.2 ans) picks answers).count true
      ≤ (List.zipWith (fun qa ans => answer_correct qa.2 ans) picks answers).length :=
        List.count_le_length _ _
    _ = min picks.length answers.length := List.length_zipWith _ _ _
    _ ≤ picks.length := Nat.min_le_left _ _

/-- C4: with the 10 questions the flow draws, the code-entry prompt occurs iff
all 10 answers are correct; otherwise the flow reports `wrong = 10 - correct`
(and offers no code entry). -/
theorem emergency_code_entry_iff (picks : List (List Char × List Char))
    (answers : List (Option (List Char))) (hlen : picks.length = 10) :
    (emergency_quiz_outcome picks answers = .codeEntry ↔
      count_correct picks answers = 10) ∧
    (count_correct picks answers < 10 →
      emergency_quiz_outcome picks answers =
        .reported (10 - count_correct picks answers)) := by
  have hle : count_correct picks answers ≤ 10 := hlen ▸ count_correct_le picks answers
  refine ⟨⟨?_, ?_⟩, ?_⟩
  · intro h
    by_contra hne
    have hlt : count_correct picks answers < 10 := by omega
    have hwz : ¬ (10 - count_correct picks answers = 0) := by omega
    simp [emergency_quiz_outcome, hwz] at h
  · intro h
    simp [emergency_quiz_outcome, h]
  · intro hlt
    have hwz : ¬ (10 - count_correct picks answers = 0) := by omega
    simp [emergency_quiz_outcome, hwz]

theorem emergency_code_entry_iff_witness :
    emergency_quiz_outcome (emergency_qpool.take 10) (List.replicate 10 none) =
      .reported 10 := by
  have h := emergency_code_entry_iff (emergency_qpool.take 10)
    (List.replicate 10 none) (by decide)
  have hc : count_correct (emergency_qpool.take 10) (List.replicate 10 none) = 0 := by
    decide
  have h2 := h.2 (by rw [hc]; decide)
  rw [hc] at h2
  exact h2

/-! ## Secret code generator (`new_secret_code`) -/

/-- ASCII digit character for `d ≤ 9`. -/
def digitChar (d : Nat) : Char := Char.ofNat (48 + d)

/-- Model of `new_secret_code` (lines 195–196): `"{:04d}".format(random.randint(0, 9999))`.
On the `randint` range 0–9999 the zero-padded width-4 decimal format is
exactly the four decimal digits of `n`, thousands digit first. -/
def new_secret_code (n : Nat) : List Char :=
  [digitChar (n / 1000 % 10), digitChar (n / 100 % 10),
   digitChar (n / 10 % 10), digitChar (n % 10)]

theorem digitChar_isDigit {d : Nat} (hd : d < 10) : (digitChar d).isDigit = true := by
  interval_cases d <;> decide

theorem digitChar_inj {a b : Nat} (ha : a < 10) (hb : b < 10)
    (h : digitChar a = digitChar b) : a = b := by
  interval_cases a <;> interval_cases b <;>
    first
    | rfl
    | exact absurd h (by decide)

/-- C6: for every `randint` outcome `n ≤ 9999`, the generated secret code is a
string of exactly 4 ASCII digits, and the map `n ↦ code` is injective on the
range, so a uniform `randint(0, 9999)` yields a uniform code over 0000–9999. -/
theorem new_secret_code_four_digits (n : Nat) (hn : n ≤ 9999) :
    (new_secret_code n).length = 4 ∧
    (∀ c ∈ new_secret_code n, c.isDigit) ∧
    (∀ m, m ≤ 9999 → new_secret_code m = new_secret_code n → m = n) := by
  refine ⟨rfl, ?_, ?_⟩
  · intro c hc
    simp only [new_secret_code, List.mem_cons, List.not_mem_nil, or_false] at hc
    rcases hc with h | h | h | h <;>
      (subst h; exact digitChar_isDigit (Nat.mod_lt _ (by norm_num)))
  · intro m hm h
    simp only [new_secret_code, List.cons.injEq, and_true] at h
    obtain ⟨h1, h2, h3, h4⟩ := h
    have e1 := digitChar_inj (Nat.mod_lt _ (by norm_num)) (Nat.mod_lt _ (by norm_num)) h1
    have e2 := digitChar_inj (Nat.mod_lt _ (by norm_num)) (Nat.mod_lt _ (by norm_num)) h2
    have e3 := digitChar_inj (Nat.mod_lt _ (by norm_num)) (Nat.mod_lt _ (by norm_num)) h3
    have e4 := digitChar_inj (Nat.mod_lt _ (by norm_num)) (Nat.mod_lt _ (by norm_num)) h4
    omega

theorem new_secret_code_four_digits_witness :
    (new_secret_code 42).length = 4 ∧ new_secret_code 42 = "0042".toList :=
  ⟨(new_secret_code_four_digits 42 (by decide)).1, by decide⟩

/-! ## `SecretHelpers`: clue/trivia positions and reveal patterns -/

/-- Model of `SecretHelpers.__init__` (lines 441–444): shuffle `[0,1,2,3]` and take the
sorted first two as the clue positions.  `random.shuffle`'s output enters the
model as the permutation `perm`. -/
def clue_positions (perm : List Nat) : List Nat :=
  (perm.take 2).insertionSort (· ≤ ·)

/-- Model of `SecretHelpers.__init__` (line 446): the trivia positions are the sorted
remaining entries of the shuffled list. -/
def trivia_positions (perm : List Nat) : List Nat :=
  (perm.filter (fun p => decide (p ∉ clue_positions perm))).insertionSort (· ≤ ·)

theorem positions_partition_all :
    ∀ perm ∈ ([0, 1, 2, 3] : List Nat).permutations',
      (clue_positions perm).length = 2 ∧ (clue_positions perm).Nodup ∧
      (∀ x ∈ clue_positions perm, x < 4) ∧
      (trivia_positions perm).length = 2 ∧ (trivia_positions perm).Nodup ∧
      (∀ x ∈ trivia_positions perm, x < 4) ∧
      (∀ x ∈ clue_positions perm, x ∉ trivia_positions perm) ∧
      (∀ x < 4, x ∈ clue_positions perm ∨ x ∈ trivia_positions perm) := by
  decide

/-- C7: for any shuffle outcome, the clue and trivia position lists are
2-element duplicate-free subsets of `{0,1,2,3}`, disjoint, and jointly
covering `{0,1,2,3}`.  (Both are computed once in `__init__` and never
reassigned, so they are fixed for the run.) -/
theorem clue_trivia_positions_partition (perm : List Nat)
    (h : perm.Perm [0, 1, 2, 3]) :
    (clue_positions perm).length = 2 ∧ (clue_positions perm).Nodup ∧
    (∀ x ∈ clue_positions perm, x < 4) ∧
    (trivia_positions perm).length = 2 ∧ (trivia_positions perm).Nodup ∧
    (∀ x ∈ trivia_positions perm, x < 4) ∧
    (∀ x ∈ clue_positions perm, x ∉ trivia_positions perm) ∧
    (∀ x < 4, x ∈ clue_positions perm ∨ x ∈ trivia_positions perm) :=
  positions_partition_all perm (List.mem_permutations'.2 h)

theorem clue_trivia_positions_partition_witness :
    clue_positions [2, 0, 3, 1] = [0, 2] ∧
    trivia_positions [2, 0, 3, 1] = [1, 3] ∧
    (clue_positions [2, 0, 3, 1]).length = 2 :=
  ⟨by decide, by decide,
    (clue_trivia_positions_partition [2, 0, 3, 1] (by decide)).1⟩

/-- Pattern builder shared by `clue_finder` (lines 450–453) and the
perfect-score branch of `trivia_helper` (lines 480–483): start from `"****"`
and copy the secret's digit into each of the given positions. -/
def revealPattern (secret : List Char) (ps : List Nat) : List Char :=
  ps.foldl (fun acc pos => acc.set pos (secret.getD pos '*')) "****".toList

/-- Model of `SecretHelpers.clue_finder` (lines 448–455): the pattern it displays. -/
def clue_finder (secret : List Char) (perm : List Nat) : List Char :=
  revealPattern secret (clue_positions perm)

theorem foldl_set_length (secret : List Char) (ps : List Nat) :
    ∀ acc : List Char,
      (ps.foldl (fun acc pos => acc.set pos (secret.getD pos '*')) acc).length =
        acc.length := by
  induction ps with
  | nil => intro acc; rfl
  | cons p rest ih => intro acc; rw [List.foldl_cons, ih, List.length_set]

theorem revealPattern_length (secret : List Char) (ps : List Nat) :
    (revealPattern secret ps).length = 4 := by
  unfold revealPattern
  rw [foldl_set_length]
  rfl

theorem foldl_set_getD_not_mem (secret : List Char) {ps : List Nat} {i : Nat}
    (hi : i ∉ ps) :
    ∀ acc : List Char,
      (ps.foldl (fun acc pos => acc.set pos (secret.getD pos '*')) acc).getD i '*' =
        acc.getD i '*' := by
  induction ps with
  | nil => intro acc; rfl
  | cons p rest ih =>
      intro acc
      have hir : i ∉ rest := fun h => hi (List.mem_cons_of_mem p h)
      have hip : p ≠ i := fun h => hi (h ▸ List.mem_cons_self p rest)
      rw [List.foldl_cons, ih hir, List.getD_eq_getElem?_getD,
        List.getElem?_set_ne hip, ← List.getD_eq_getElem?_getD]

theorem foldl_set_getD_mem (secret : List Char) {ps : List Nat} {i : Nat}
    (hmem : i ∈ ps) :
    ∀ acc : List Char, i < acc.length →
      (ps.foldl (fun acc pos => acc.set pos (secret.getD pos '*')) acc).getD i '*' =
        secret.getD i '*' := by
  induction ps with
  | nil => exact absurd hmem (List.not_mem_nil i)
  | cons p rest ih =>
      intro acc hacc
      rw [List.foldl_cons]
      by_cases hir : i ∈ rest
      · exact ih hir _ (by rw [List.length_set]; exact hacc)
      · have hip : p = i := by
          rcases List.mem_cons.1 hmem with h | h
          · exact h.symm
          · exact absurd h hir
        subst hip
        rw [foldl_set_getD_not_mem secret hir, List.getD_eq_getElem?_getD,
          List.getElem?_set_eq_of_lt _ hacc]
        rfl

theorem revealPattern_getD (secret : List Char) (ps : List Nat) (i : Nat)
    (hi : i < 4) :
    (revealPattern secret ps).getD i '*' =
      if i ∈ ps then secret.getD i '*' else '*' := by
  by_cases h : i ∈ ps
  · rw [if_pos h]
    exact foldl_set_getD_mem secret h _ (by simpa using hi)
  · rw [if_neg h]
    unfold revealPattern
    rw [foldl_set_getD_not_mem secret h]
    interval_cases i <;> rfl

/-- C8: the clue pattern is a 4-character string carrying the true secret
digit at each clue position and `'*'` at each hidden position; repeated calls
return the identical pattern (the builder is a pure function of the
run-immutable secret and positions); with secret "4821" and clue positions
`[0, 3]` the pattern is "4**1". -/
theorem clue_finder_pattern (secret : List Char) (perm : List Nat) :
    (clue_finder secret perm).length = 4 ∧
    (∀ i, i < 4 →
      (clue_finder secret perm).getD i '*' =
        if i ∈ clue_positions perm then secret.getD i '*' else '*') ∧
    clue_finder secret perm = clue_finder secret perm ∧
    clue_finder "4821".toList [3, 0, 1, 2] = "4**1".toList :=
  ⟨revealPattern_length secret _,
   fun i hi => revealPattern_getD secret _ i hi,
   rfl,
   by decide⟩

theorem clue_finder_pattern_witness :
    (clue_finder "4821".toList [3, 0, 1, 2]).getD 0 '*' =
      (if 0 ∈ clue_positions [3, 0, 1, 2] then ("4821".toList).getD 0 '*' else '*') ∧
    clue_finder "4821".toList [3, 0, 1, 2] = "4**1".toList :=
  ⟨(clue_finder_pattern "4821".toList [3, 0, 1, 2]).2.1 0 (by decide),
   (clue_finder_pattern "4821".toList [3, 0, 1, 2]).2.2.2⟩

/-! ## `SecretHelpers.trivia_helper` -/

/-- The trivia question pool (lines 459–470). -/
def trivia_qpool : List (List Char × List Char) :=
  [("What is the atomic number of gold?".toList, "79".toList),
   ("Which planet has the most moons (as of 2023)?".toList, "saturn".toList),
   ("What is the capital city of Peru?".toList, "lima".toList),
   ("In computing, what does \x27CPU\x27 stand for?".toList, "central processing unit".toList),
   ("What is the approximate value of pi to 2 decimal places?".toList, "3.14".toList),
   ("What year did the Berlin Wall fall?".toList, "1989".toList),
   ("Which element has chemical symbol \x27Na\x27?".toList, "sodium".toList),
   ("Who wrote \x271984\x27?".toList, "george orwell".toList),
   ("What is the largest ocean on Earth?".toList, "pacific".toList),
   ("What language is primarily spoken in Brazil?".toList, "portuguese".toList)]

/-- Observable outcome of one `trivia_helper` call. -/
structure TriviaResult where
  correct : Nat
  revealed : Option (List Char)
deriving DecidableEq, Repr

/-- Model of `SecretHelpers.trivia_helper` (lines 457–487): grade the 5 picked
questions against the dialog answers; on a perfect score reveal the digits at
the trivia positions, otherwise report only the score. -/
def trivia_helper (secret : List Char) (perm : List Nat)
    (picks : List (List Char × List Char)) (answers : List (Option (List Char))) :
    TriviaResult :=
  let correct := count_correct picks answers
  if correct = 5 then
    ⟨correct, some (revealPattern secret (trivia_positions perm))⟩
  else ⟨correct, none⟩

/-- C5: the trivia pool has (at least) 10 question/answer pairs; for any
5-question draw the correct-count is in [0, 5]; the trivia-position digits
are revealed iff the count is 5, otherwise only the score is reported; and a
cancelled or blank answer simply grades as incorrect. -/
theorem trivia_helper_contract (secret : List Char) (perm : List Nat)
    (picks : List (List Char × List Char)) (answers : List (Option (List Char)))
    (hlen : picks.length = 5) :
    10 ≤ trivia_qpool.length ∧
    (trivia_helper secret perm picks answers).correct ≤ 5 ∧
    ((trivia_helper secret perm picks answers).revealed.isSome = true ↔
      (trivia_helper secret perm picks answers).correct = 5) ∧
    ((trivia_helper secret perm picks answers).correct = 5 →
      (trivia_helper secret perm picks answers).revealed =
        some (revealPattern secret (trivia_positions perm))) ∧
    (∀ e, answer_correct e none = false ∧ answer_correct e (some []) = false) := by
  have hle : count_correct picks answers ≤ 5 := hlen ▸ count_correct_le picks answers
  by_cases h5 : count_correct picks answers = 5
  · refine ⟨by decide, ?_, ?_, ?_, ?_⟩
    · simp [trivia_helper, h5]
    · simp [trivia_helper, h5]
    · simp [trivia_helper, h5]
    · intro e; exact ⟨rfl, rfl⟩
  · refine ⟨by decide, ?_, ?_, ?_, ?_⟩
    · simpa [trivia_helper, h5] using hle
    · simp [trivia_helper, h5]
    · simp [trivia_helper, h5]
    · intro e; exact ⟨rfl, rfl⟩

theorem trivia_helper_contract_witness :
    (trivia_helper "4821".toList [3, 0, 1, 2] (trivia_qpool.take 5)
      (List.replicate 5 none)).correct ≤ 5 ∧
    trivia_helper "4821".toList [3, 0, 1, 2] (trivia_qpool.take 5)
      (List.replicate 5 none) = ⟨0, none⟩ :=
  ⟨(trivia_helper_contract "4821".toList [3, 0, 1, 2] (trivia_qpool.take 5)
      (List.replicate 5 none) (by decide)).2.1,
   by decide⟩

/-! ## Reconstruction of the secret from the two reveal patterns (C10) -/

/-- Overlay of the two reveal patterns: take the digit wherever either string
is not `'*'` (the combination named by the claim). -/
def overlayPatterns (a b : List Char) : List Char :=
  List.zipWith (fun x y => if x = '*' then y else x) a b

theorem overlayPatterns_getD (a b : List Char) (i : Nat)
    (ha : i < a.length) (hb : i < b.length) :
    (overlayPatterns a b).getD i '*' =
      if a.getD i '*' = '*' then b.getD i '*' else a.getD i '*' := by
  have hz : i < (overlayPatterns a b).length := by
    simp [overlayPatterns, ha, hb]
  rw [List.getD_eq_getElem _ _ hz, List.getD_eq_getElem _ _ ha,
    List.getD_eq_getElem _ _ hb]
  exact List.getElem_zipWith (h := hz)

/-- C10: the clue pattern and the trivia pattern are computed from the same
immutable secret, reveal disjoint position sets, and overlaying them (digit
wherever either is not `'*'`) reconstructs the full secret: every position is
revealed by exactly one of the two patterns. -/
theorem patterns_reconstruct_secret (secret : List Char) (perm : List Nat)
    (hs : secret.length = 4) (hd : ∀ c ∈ secret, c ≠ '*')
    (hp : perm.Perm [0, 1, 2, 3]) :
    overlayPatterns (revealPattern secret (clue_positions perm))
        (revealPattern secret (trivia_positions perm)) = secret ∧
    (∀ i ∈ clue_positions perm, i ∉ trivia_positions perm) := by
  have hpart := positions_partition_all perm (List.mem_permutations'.2 hp)
  obtain ⟨-, -, -, -, -, -, hdisj, hcover⟩ := hpart
  refine ⟨?_, hdisj⟩
  have hca : (revealPattern secret (clue_positions perm)).length = 4 :=
    revealPattern_length secret _
  have hcb : (revealPattern secret (trivia_positions perm)).length = 4 :=
    revealPattern_length secret _
  have hlen : (overlayPatterns (revealPattern secret (clue_positions perm))
      (revealPattern secret (trivia_positions perm))).length = secret.length := by
    simp [overlayPatterns, hca, hcb, hs]
  refine List.ext_getElem hlen ?_
  intro i h1 h2
  have hi4 : i < 4 := by omega
  have hoverlay := overlayPatterns_getD
    (revealPattern secret (clue_positions perm))
    (revealPattern secret (trivia_positions perm)) i
    (by omega) (by omega)
  have hgc := revealPattern_getD secret (clue_positions perm) i hi4
  have hgt := revealPattern_getD secret (trivia_positions perm) i hi4
  have hsec : secret.getD i '*' = secret[i] :=
    List.getD_eq_getElem _ _ h2
  have hsecne : secret.getD i '*' ≠ '*' := by
    rw [hsec]
    exact hd _ (List.getElem_mem h2)
  have hov : (overlayPatterns (revealPattern secret (clue_positions perm))
      (revealPattern secret (trivia_positions perm))).getD i '*' =
      (overlayPatterns (revealPattern secret (clue_positions perm))
        (revealPattern secret (trivia_positions perm)))[i] :=
    List.getD_eq_getElem _ _ h1
  rw [← hov, hoverlay, hgc, hgt]
  by_cases hc : i ∈ clue_positions perm
  · rw [if_pos hc, if_neg hsecne, hsec]
  · have ht : i ∈ trivia_positions perm := by
      rcases hcover i hi4 with h | h
      · exact absurd h hc
      · exact h
    rw [if_neg hc, if_pos ht, if_pos rfl, hsec]

theorem patterns_reconstruct_secret_witness :
    overlayPatterns (revealPattern "4821".toList (clue_positions [3, 0, 1, 2]))
        (revealPattern "4821".toList (trivia_positions [3, 0, 1, 2])) =
      "4821".toList :=
  (patterns_reconstruct_secret "4821".toList [3, 0, 1, 2] (by decide) (by decide)
    (by decide)).1

/-! ## `fetch_ip_location`: best-effort multi-provider geolocation -/

/-- The fixed provider list (lines 219–223). -/
def geo_services : List (List Char) :=
  ["https://ipapi.co/json/".toList,
   "https://ipinfo.io/json".toList,
   "https://ipwho.is/".toList]

/-- The JSON fields `fetch_ip_location` reads from a provider's body. -/
structure GeoData where
  city : Option (List Char)
  region : Option (List Char)
  country_name : Option (List Char)
  country : Option (List Char)
deriving DecidableEq, Repr

/-- Python `a or b or ""` over two `data.get` results (`None` and `""` are
falsy). -/
def pyOrStr (a b : Option (List Char)) : List Char :=
  match a with
  | some s => if s ≠ [] then s else b.getD []
  | none => b.getD []

/-- Per-provider extraction (lines 235–240): `some` result returns from the
loop, `none` falls through to the next provider. -/
def extract_location (d : GeoData) : Option (List Char × List Char) :=
  let city := pyStrip (pyOrStr d.city d.region)
  let country := pyStrip (pyOrStr d.country_name d.country)
  if city ≠ [] ∧ country ≠ [] then some (city, country)
  else if country ≠ [] then some ([], country)
  else none

/-- What one provider attempt yields.  `none` (the whole attempt) models a
raised-and-caught exception — timeout, provider unavailable — while
`some d` is a response whose JSON parse gave `d`; a malformed body parses to
`data = {}`, i.e. a `GeoData` with every field `none` (lines 230–233). -/
def provider_yields (o : Option GeoData) : Option (List Char × List Char) :=
  match o with
  | none => none
  | some d => extract_location d

/-- Model of `fetch_ip_location` (lines 217–244) as a function of the per-provider
outcomes, in provider order: take the first successful extraction, fall
through on every failure, and return `("", "Unknown")` when no provider
succeeds.  The embedding is a total function: no failure escapes. -/
def fetch_ip_location : List (Option GeoData) → List Char × List Char
  | [] => ([], "Unknown".toList)
  | o :: rest =>
      match provider_yields o with
      | some r => r
      | none => fetch_ip_location rest

theorem fetch_ip_location_all_fail :
    ∀ outcomes : List (Option GeoData),
      (∀ o ∈ outcomes, provider_yields o = none) →
      fetch_ip_location outcomes = ([], "Unknown".toList) := by
  intro outcomes
  induction outcomes with
  | nil => intro _; rfl
  | cons o rest ih =>
      intro h
      have ho := h o (List.mem_cons_self o rest)
      have hrest := ih (fun p hp => h p (List.mem_cons_of_mem o hp))
      simp [fetch_ip_location, ho, hrest]

theorem fetch_ip_location_first_success :
    ∀ (pre : List (Option GeoData)) (o : Option GeoData)
      (rest : List (Option GeoData)) (r : List Char × List Char),
      (∀ p ∈ pre, provider_yields p = none) → provider_yields o = some r →
      fetch_ip_location (pre ++ o :: rest) = r := by
  intro pre
  induction pre with
  | nil =>
      intro o rest r _ ho
      simp [fetch_ip_location, ho]
  | cons p pre' ih =>
      intro o rest r hpre ho
      have hp := hpre p (List.mem_cons_self p pre')
      have hrec := ih o rest r (fun q hq => hpre q (List.mem_cons_of_mem p hq)) ho
      simp [fetch_ip_location, hp, hrec]

/-- C9: the lookup walks its fixed 3-provider list in order; every failing
provider (exception or a response yielding nothing) silently falls through to
the next; the first successful provider's result is returned; and when every
provider fails the call returns the `("", "Unknown")` fallback instead of
raising (the embedding is a total function). -/
theorem fetch_ip_location_fallback (outcomes : List (Option GeoData)) :
    geo_services.length = 3 ∧
    ((∀ o ∈ outcomes, provider_yields o = none) →
      fetch_ip_location outcomes = ([], "Unknown".toList)) ∧
    (∀ (pre : List (Option GeoData)) (o : Option GeoData)
        (rest : List (Option GeoData)) (r : List Char × List Char),
      outcomes = pre ++ o :: rest →
      (∀ p ∈ pre, provider_yields p = none) → provider_yields o = some r →
      fetch_ip_location outcomes = r) := by
  refine ⟨rfl, fetch_ip_location_all_fail outcomes, ?_⟩
  intro pre o rest r heq hpre ho
  rw [heq]
  exact fetch_ip_location_first_success pre o rest r hpre ho

theorem fetch_ip_location_fallback_witness :
    fetch_ip_location
      [none, some ⟨none, none, none, none⟩,
       some ⟨some "Paris".toList, none, none, some "France".toList⟩] =
      ("Paris".toList, "France".toList) :=
  (fetch_ip_location_fallback
      [none, some ⟨none, none, none, none⟩,
       some ⟨some "Paris".toList, none, none, some "France".toList⟩]).2.2
    [none, some ⟨none, none, none, none⟩]
    (some ⟨some "Paris".toList, none, none, some "France".toList⟩) [] _
    rfl (by decide) (by decide)

end ScarePrank
